import Mathlib

/-!
Verification of the Medical Report Analyzer dashboard (`src/streamlit_app.py`)
against its natural-language specification.

The visible code is a Streamlit page controller.  We embed its data flow
shallowly: each page handler becomes a pure function from its inputs
(session state, uploaded file, persistent store) to an outcome record
holding the new state, the persisted store, and the user-visible messages.
Purely presentational calls (CSS, chart rendering, dataframe previews,
download buttons) have no effect on state or store and are elided.

The collaborator modules `src.agents.medical_llm_agent`,
`src.agents.report_generation_agent` and `src.database.db_manager` are
imported by the app but their sources are not in the repository snapshot;
where a claim depends on their behaviour they are modelled from the spec
(each such definition is marked `Modelled from the spec:`).  The LLM agent
is passed as an explicit function argument since the spec leaves its
algorithm out of scope.
-/

namespace MedReport

/-! ## Tables

A pandas `DataFrame` as the app uses it: an ordered list of named columns,
each flagged numeric or not (the app only ever asks `select_dtypes` for
`int64`/`float64`), each a list of cells where `none` is a missing value
(`NaN`).  Rectangularity is an invariant of real frames; `numRows` reads the
first column, matching `len(df)` on rectangular data. -/

structure Column where
  name : String
  isNumeric : Bool
  cells : List (Option String)
  deriving DecidableEq, Repr

structure Table where
  cols : List Column
  deriving DecidableEq, Repr

/-- `len(df)`: the number of rows. -/
def Table.numRows (t : Table) : Nat :=
  match t.cols with
  | [] => 0
  | c :: _ => c.cells.length

/-- `len(df.columns)`: the number of columns. -/
def Table.numCols (t : Table) : Nat := t.cols.length

/-- `len(df.select_dtypes(include=['int64','float64']).columns)`. -/
def Table.numNumericCols (t : Table) : Nat :=
  (t.cols.filter (fun c => c.isNumeric)).length

/-- Missing cells in one column. -/
def Column.missingCount (c : Column) : Nat :=
  (c.cells.filter (fun x => x.isNone)).length

/-- `df.isnull().sum().sum()`: total count of missing cells. -/
def Table.missingCount (t : Table) : Nat :=
  (t.cols.map Column.missingCount).sum

/-- A table is rectangular: every column has the same length. -/
def Table.Rectangular (t : Table) : Prop :=
  ∀ c ∈ t.cols, c.cells.length = t.numRows

/-! ## Analysis results

The app treats the analysis result as a dict with optional keys
(`"insights" in analysis_results`, `.get("insights", [])`, …); each
recognized key becomes an `Option` field, `none` meaning the key is absent.
`accuracy` is a float in the source; the app only tests its presence, so we
carry it as a rational. -/

structure AnalysisResult where
  insights : Option (List String) := none
  risk_factors : Option (List String) := none
  predictions : Option String := none
  accuracy : Option ℚ := none
  confusion_matrix : Option (List (List Nat)) := none
  error : Option String := none
  deriving DecidableEq, Repr

/-! ## Session state and messages -/

/-- `st.session_state` fields the app initializes (lines 84–89). -/
structure SessionState where
  current_file : Option String := none
  analysis_results : Option AnalysisResult := none
  df : Option Table := none
  deriving DecidableEq, Repr

/-- User-visible output: `st.warning`, `st.error`, `st.info`, `st.success`. -/
inductive Msg where
  | warning : String → Msg
  | errorMsg : String → Msg
  | info : String → Msg
  | success : String → Msg
  deriving DecidableEq, Repr

/-! ## Uploaded files

`pd.read_csv` is an external library routine; what the controller observes
is whether the bytes of the uploaded file parse as CSV, so an uploaded file
carries its name, its MIME type (`uploaded_file.type`), and the outcome the
CSV parser produces on its bytes (`.error e` embeds the raised exception's
message). -/

instance {α β : Type} [DecidableEq α] [DecidableEq β] :
    DecidableEq (Except α β) := fun a b =>
  match a, b with
  | .error x, .error y =>
      if h : x = y then .isTrue (by rw [h]) else .isFalse (by simp [h])
  | .error _, .ok _ => .isFalse (by simp)
  | .ok _, .error _ => .isFalse (by simp)
  | .ok x, .ok y =>
      if h : x = y then .isTrue (by rw [h]) else .isFalse (by simp [h])

structure UploadedFile where
  name : String
  filetype : String
  parseOutcome : Except String Table
  deriving DecidableEq, Repr

/-- Accepted extensions of the Upload & Analyze uploader (line 101). -/
def uploadAnalyzeTypes : List String := ["csv"]

/-- Accepted extensions of the Quick Summary uploader (line 344). -/
def quickSummaryTypes : List String := ["csv", "xlsx"]

/-! ## Upload & Analyze page (lines 97–225) -/

structure UploadPageOutcome where
  state : SessionState
  /-- Path in the scoped `uploads` area the raw bytes were written to. -/
  savedUpload : Option String
  messages : List Msg
  /-- The four displayed metric cards: records, features, numeric cols,
  missing values (lines 118–151). -/
  metrics : Option (Nat × Nat × Nat × Nat)
  deriving DecidableEq, Repr

/-- `show_upload_and_analyze`.  The whole body after the upload sits in one
`try`; the final `except` shows `st.error(f"Error processing file: …")`.
The bytes are written to `uploads/<name>` and `current_file` is assigned
*before* `pd.read_csv` runs.  `runClicked` is the "Run Analysis" button;
`llm` stands for `llm_agent.analyze`.  Chart rendering in the result tabs
is presentational and elided. -/
def show_upload_and_analyze (llm : Table → String → AnalysisResult)
    (s : SessionState) (upload : Option UploadedFile)
    (analysis_type : String) (runClicked : Bool) : UploadPageOutcome :=
  match upload with
  | none => ⟨s, none, [], none⟩
  | some f =>
      let path := "uploads/" ++ f.name
      let s1 := { s with current_file := some path }
      match f.parseOutcome with
      | .error e =>
          ⟨s1, some path, [.errorMsg ("Error processing file: " ++ e)], none⟩
      | .ok df =>
          let s2 := { s1 with df := some df }
          let m := (df.numRows, df.numCols, df.numNumericCols, df.missingCount)
          if runClicked then
            let ar := llm df analysis_type
            let s3 := { s2 with analysis_results := some ar }
            ⟨s3, some path, [.success "Analysis complete! 🎉"], some m⟩
          else
            ⟨s2, some path, [], some m⟩

/-! ## Report store

`DatabaseManager` is imported from `src.database.db_manager`, which is not
in the repository snapshot; the store is modelled from the spec (§3, §4.4,
§6): an append-only store of report records and quick summaries, with
identifiers and timestamps assigned on save. -/

structure Metadata where
  rows : Nat
  columns : Nat
  file_type : String
  deriving DecidableEq, Repr

structure ReportRecord where
  id : Nat
  filename : String
  report_path : String
  report_type : String
  analysis_results : AnalysisResult
  metadata : Metadata
  created_at : Nat
  deriving DecidableEq, Repr

structure QuickSummaryRecord where
  id : Nat
  report_id : Nat
  summary_text : String
  created_at : Nat
  deriving DecidableEq, Repr

structure Store where
  nextReportId : Nat := 0
  nextSummaryId : Nat := 0
  reports : List ReportRecord := []
  summaries : List QuickSummaryRecord := []
  deriving DecidableEq, Repr

/-- Store identifiers are fresh: every stored report id is below the next
id the store will assign. -/
def Store.WF (st : Store) : Prop :=
  ∀ r ∈ st.reports, r.id < st.nextReportId

/-- Modelled from the spec: `save_report` of the missing `DatabaseManager`
(§4.4 `save`): inserts one new Report Record, assigns identifier and
creation timestamp, returns the identifier. -/
def Store.save_report (st : Store) (now : Nat) (filename report_path report_type : String)
    (analysis_results : AnalysisResult) (metadata : Metadata) : Store × Nat :=
  let rid := st.nextReportId
  ({ st with
      nextReportId := rid + 1,
      reports := st.reports ++
        [⟨rid, filename, report_path, report_type, analysis_results, metadata, now⟩] },
   rid)

/-- Modelled from the spec: `save_quick_summary` of the missing
`DatabaseManager` (§4.4 `saveQuickSummary`): fails with `NotFoundError` if
`report_id` references no existing Report Record. -/
def Store.save_quick_summary (st : Store) (now : Nat) (report_id : Nat)
    (summary_text : String) : Except String Store :=
  if st.reports.any (fun r => r.id == report_id) then
    .ok { st with
            nextSummaryId := st.nextSummaryId + 1,
            summaries := st.summaries ++
              [⟨st.nextSummaryId, report_id, summary_text, now⟩] }
  else
    .error "NotFoundError"

/-- Modelled from the spec: `get_report_details` of the missing
`DatabaseManager` (§4.4 `getDetails`): the full record with its associated
quick summaries, or absent. -/
def Store.get_report_details (st : Store) (rid : Nat) :
    Option (ReportRecord × List QuickSummaryRecord) :=
  match st.reports.find? (fun r => r.id == rid) with
  | none => none
  | some r => some (r, st.summaries.filter (fun q => q.report_id == rid))

/-- Ordering key of `recent`: creation time descending, ties broken by
identifier descending (spec §4.4). -/
def recentLe (a b : ReportRecord) : Bool :=
  decide (b.created_at < a.created_at ∨
          (b.created_at = a.created_at ∧ b.id ≤ a.id))

/-- Modelled from the spec: `get_recent_reports` of the missing
`DatabaseManager` (§4.4 `recent`): at most `n` records, ordered by creation
time descending, ties broken by identifier descending. -/
def Store.get_recent_reports (st : Store) (n : Nat) : List ReportRecord :=
  (st.reports.mergeSort recentLe).take n

/-- Character-list prefix test, for the substring match of `search`. -/
def charsPref : List Char → List Char → Bool
  | [], _ => true
  | _ :: _, [] => false
  | a :: as, b :: bs => a == b && charsPref as bs

/-- Character-list substring test. -/
def charsSub (needle : List Char) : List Char → Bool
  | [] => needle.isEmpty
  | c :: rest => charsPref needle (c :: rest) || charsSub needle rest

/-- Modelled from the spec: `search_reports` of the missing
`DatabaseManager` (§4.4 `search`): substring match over filename. -/
def Store.search_reports (st : Store) (query : String) : List ReportRecord :=
  st.reports.filter (fun r => charsSub query.data r.filename.data)

/-- Modelled from the spec: `get_report_summary_stats` of the missing
`DatabaseManager` (§4.4 `summaryStats`): total count, and count of records
created within the trailing 24 hours (86400 seconds) of the call time. -/
def Store.get_report_summary_stats (st : Store) (now : Nat) : Nat × Nat :=
  (st.reports.length,
   (st.reports.filter (fun r => now ≤ r.created_at + 86400)).length)

/-! ## Quick Summary page (lines 340–392) -/

structure QuickSummaryOutcome where
  store : Store
  messages : List Msg
  /-- The three displayed metrics: total records, features, missing values
  (lines 351–357). -/
  metrics : Option (Nat × Nat × Nat)
  deriving DecidableEq, Repr

/-- `show_quick_summary`.  The page has no `try`/`except`: a raised
exception (the CSV parse at line 347, or `NotFoundError` from
`save_quick_summary`) propagates out, embedded as `.error`.  On an
`error`-bearing analysis result nothing is saved and an error message is
shown; otherwise the insights are shown, a `quick_summary` report record is
saved with empty path and `{rows, columns, file_type}` metadata, and the
newline-joined insights are saved as the quick summary text. -/
def show_quick_summary (llm : Table → String → AnalysisResult)
    (db : Store) (now : Nat) (upload : Option UploadedFile) :
    Except String QuickSummaryOutcome :=
  match upload with
  | none => .ok ⟨db, [], none⟩
  | some f =>
      match f.parseOutcome with
      | .error e => .error e
      | .ok df =>
          let metrics := (df.numRows, df.numCols, df.missingCount)
          let ar := llm df "basic"
          if ar.error = none then
            let infoMsgs := (ar.insights.getD []).map Msg.info
            let metadata : Metadata := ⟨df.numRows, df.numCols, f.filetype⟩
            let saved := db.save_report now f.name "" "quick_summary" ar metadata
            let summary_text := String.intercalate "\n" (ar.insights.getD [])
            match saved.1.save_quick_summary now saved.2 summary_text with
            | .error e => .error e
            | .ok db2 =>
                .ok ⟨db2,
                     infoMsgs ++ [.success "Summary saved to database! 🎉"],
                     some metrics⟩
          else
            .ok ⟨db, [.errorMsg "Failed to generate summary. Please try again."],
                 some metrics⟩

/-! ## Report Assembler and the Report Generation page (lines 227–338) -/

/-- Modelled from the spec: `generate_report` of the missing
`ReportGenerationAgent` (§4.3, §8): fails with `AssemblyError` on an
`error`-bearing result, and produces no document when `accuracy` is absent
from a "detailed"-mode result that otherwise lacks `error`; on success
writes one document and returns its (non-empty) path, named from the
source filename. -/
def generate_report (data_file : String) (analysis_results : AnalysisResult)
    (report_type : String) : Except String String :=
  if analysis_results.error.isSome then
    .error "AssemblyError: analysis result carries an error"
  else if report_type == "detailed" && analysis_results.accuracy.isNone then
    .error "AssemblyError: detailed report requires accuracy"
  else
    .ok ("reports/" ++ data_file ++ "_" ++ report_type ++ ".pdf")

/-- Python's `str.lower()` on a character: ASCII lowercase. -/
def lowerChar (c : Char) : Char :=
  if c.isUpper then Char.ofNat (c.toNat + 32) else c

/-- Python's `str.lower()`, applied to `report_format` at line 301. -/
def lowerStr (s : String) : String := ⟨s.data.map lowerChar⟩

structure ReportGenOutcome where
  state : SessionState
  messages : List Msg
  /-- The arguments `report_agent.generate_report` was invoked with, when
  it was invoked at all (lines 298–302). -/
  assemblerCalledWith : Option (String × AnalysisResult × String)
  /-- Path of the generated document offered for download, if any. -/
  generatedDoc : Option String
  deriving DecidableEq, Repr

/-- `show_report_generation`.  Returns early with a warning when no file or
no analysis result is in the session (lines 230–236); otherwise, on the
"Generate Report" click, invokes the assembler with the session's analysis
result — without inspecting it for an `error` key — inside a `try` whose
`except` shows two error messages (lines 336–338).  `report_format.lower()`
becomes `lowerStr fmt`.  The dashboard visualizations and the HTML preview
are presentational and elided. -/
def show_report_generation (s : SessionState) (fmt : String)
    (generateClicked : Bool) : ReportGenOutcome :=
  match s.current_file with
  | none =>
      ⟨s, [.warning "Please upload a file first in the Upload & Analyze section"],
       none, none⟩
  | some file =>
      match s.analysis_results with
      | none =>
          ⟨s, [.warning "Please run analysis first in the Upload & Analyze section"],
           none, none⟩
      | some res =>
          if generateClicked then
            match generate_report file res (lowerStr fmt) with
            | .ok path =>
                ⟨s, [.success "Report generated successfully! 🎉"],
                 some (file, res, lowerStr fmt), some path⟩
            | .error e =>
                ⟨s, [.errorMsg ("Error generating report: " ++ e),
                     .errorMsg "Please try again."],
                 some (file, res, lowerStr fmt), none⟩
          else ⟨s, [], none, none⟩

/-! ## Report History page (lines 394–424) -/

structure HistoryOutcome where
  /-- The report summaries listed on the page. -/
  listed : List ReportRecord
  /-- The sidebar statistics: total reports, recent reports (24h). -/
  stats : Nat × Nat
  deriving DecidableEq, Repr

/-- `show_report_history`: a non-empty search query lists
`search_reports(query)`, otherwise the 10 most recent reports; the sidebar
shows the summary statistics.  Per-report expanders are presentational and
elided. -/
def show_report_history (db : Store) (now : Nat) (search_query : String) :
    HistoryOutcome :=
  if search_query ≠ "" then
    ⟨db.search_reports search_query, db.get_report_summary_stats now⟩
  else
    ⟨db.get_recent_reports 10, db.get_report_summary_stats now⟩

/-! ## Concrete fixtures -/

/-- A small parseable dataset: 2 rows, 2 columns, 1 missing cell. -/
def tinyTable : Table :=
  ⟨[⟨"age", true, [some "34", none]⟩, ⟨"name", false, [some "a", some "b"]⟩]⟩

/-- A valid CSV upload. -/
def goodCsvFile : UploadedFile := ⟨"data.csv", "text/csv", .ok tinyTable⟩

/-- An upload whose bytes the CSV parser rejects. -/
def badCsvFile : UploadedFile :=
  ⟨"bad.csv", "text/csv", .error "ParserError: bad line"⟩

/-- An xlsx upload, accepted by the Quick Summary uploader but rejected by
the CSV parser. -/
def xlsxFile : UploadedFile :=
  ⟨"data.xlsx", "application/vnd.ms-excel", .error "ParserError: not a CSV"⟩

/-- An analysis engine that succeeds with two insights. -/
def llmOk : Table → String → AnalysisResult :=
  fun _ _ => { insights := some ["Mean age is 34.", "One value is missing."] }

/-- An analysis engine that succeeds but returns no `insights` key. -/
def llmNoInsights : Table → String → AnalysisResult :=
  fun _ _ => { risk_factors := some ["smoking"] }

/-- An analysis engine that fails, returning an `error`-bearing result. -/
def llmFail : Table → String → AnalysisResult :=
  fun _ _ => { error := some "model unavailable" }

/-- An `error`-bearing analysis result alone. -/
def errResult : AnalysisResult := { error := some "model unavailable" }

/-- A session holding a file and an `error`-bearing analysis result. -/
def errSession : SessionState :=
  ⟨some "uploads/data.csv", some errResult, some tinyTable⟩

/-- The 100-row, 5-column table with 3 missing cells of the spec scenario. -/
def table100 : Table :=
  ⟨[⟨"c1", true, none :: none :: none :: List.replicate 97 (some "1")⟩,
    ⟨"c2", true, List.replicate 100 (some "2")⟩,
    ⟨"c3", false, List.replicate 100 (some "x")⟩,
    ⟨"c4", true, List.replicate 100 (some "3")⟩,
    ⟨"c5", false, List.replicate 100 (some "y")⟩]⟩

/-- The spec-scenario table as a CSV upload. -/
def bigCsvFile : UploadedFile := ⟨"big.csv", "text/csv", .ok table100⟩

/-! ## Shared characterization of the successful Quick Summary flow -/

/-- On a parse-ok upload whose basic analysis carries no `error` key, the
Quick Summary page saves exactly one report record and one quick summary
and reports success. -/
theorem show_quick_summary_ok (llm : Table → String → AnalysisResult)
    (db : Store) (now : Nat) (f : UploadedFile) (df : Table)
    (hp : f.parseOutcome = .ok df) (he : (llm df "basic").error = none) :
    show_quick_summary llm db now (some f) =
      .ok ⟨{ db with
              nextReportId := db.nextReportId + 1,
              nextSummaryId := db.nextSummaryId + 1,
              reports := db.reports ++
                [⟨db.nextReportId, f.name, "", "quick_summary", llm df "basic",
                  ⟨df.numRows, df.numCols, f.filetype⟩, now⟩],
              summaries := db.summaries ++
                [⟨db.nextSummaryId, db.nextReportId,
                  String.intercalate "\n" ((llm df "basic").insights.getD []),
                  now⟩] },
           ((llm df "basic").insights.getD []).map Msg.info ++
             [.success "Summary saved to database! 🎉"],
           some (df.numRows, df.numCols, df.missingCount)⟩ := by
  simp [show_quick_summary, hp, he, Store.save_report, Store.save_quick_summary,
        List.any_append]

/-! ## C1 -/

/-- C1: the claim states that after a failed CSV parse the session state is
left unchanged, with no current-file reference.  False: the controller
assigns `st.session_state.current_file` before `pd.read_csv` runs, so after
the recovered failure the session of a fresh session state holds
`uploads/bad.csv` as current file. -/
theorem C1_counterexample :
    (show_upload_and_analyze (fun _ _ => {}) {} (some badCsvFile)
        "Basic Analysis" false).messages
      = [.errorMsg "Error processing file: ParserError: bad line"] ∧
    (show_upload_and_analyze (fun _ _ => {}) {} (some badCsvFile)
        "Basic Analysis" false).state.current_file
      = some "uploads/bad.csv" ∧
    ({} : SessionState).current_file = none :=
  ⟨rfl, rfl, rfl⟩

/-- C1 (amended): when the uploaded file cannot be parsed as CSV, the
controller recovers the error into a user-visible message and stores no
partial Table and no Analysis Result; the raw bytes are persisted to the
upload area before parsing, and the session current-file reference is set
to that path (so the session is not left fully unchanged). -/
theorem C1_parse_failure_recovered (llm : Table → String → AnalysisResult)
    (s : SessionState) (f : UploadedFile) (e : String)
    (t : String) (r : Bool) (hp : f.parseOutcome = .error e) :
    (show_upload_and_analyze llm s (some f) t r).messages
      = [.errorMsg ("Error processing file: " ++ e)] ∧
    (show_upload_and_analyze llm s (some f) t r).state.df = s.df ∧
    (show_upload_and_analyze llm s (some f) t r).state.analysis_results
      = s.analysis_results ∧
    (show_upload_and_analyze llm s (some f) t r).state.current_file
      = some ("uploads/" ++ f.name) ∧
    (show_upload_and_analyze llm s (some f) t r).savedUpload
      = some ("uploads/" ++ f.name) := by
  simp [show_upload_and_analyze, hp]

/-- C1 witness: the amended behaviour at a concrete failed upload. -/
theorem C1_witness :
    badCsvFile.parseOutcome = .error "ParserError: bad line" ∧
    ((show_upload_and_analyze (fun _ _ => {}) {} (some badCsvFile)
        "Basic Analysis" false).messages
      = [.errorMsg ("Error processing file: " ++ "ParserError: bad line")] ∧
    (show_upload_and_analyze (fun _ _ => {}) {} (some badCsvFile)
        "Basic Analysis" false).state.df = ({} : SessionState).df ∧
    (show_upload_and_analyze (fun _ _ => {}) {} (some badCsvFile)
        "Basic Analysis" false).state.analysis_results
      = ({} : SessionState).analysis_results ∧
    (show_upload_and_analyze (fun _ _ => {}) {} (some badCsvFile)
        "Basic Analysis" false).state.current_file
      = some ("uploads/" ++ badCsvFile.name) ∧
    (show_upload_and_analyze (fun _ _ => {}) {} (some badCsvFile)
        "Basic Analysis" false).savedUpload
      = some ("uploads/" ++ badCsvFile.name)) :=
  ⟨rfl, C1_parse_failure_recovered (fun _ _ => {}) {} badCsvFile
    "ParserError: bad line" "Basic Analysis" false rfl⟩

/-! ## C2 -/

/-- C2: in the Quick Summary flow, an `error`-bearing analysis result is
treated as a failure: the store is returned unchanged (no report record, no
quick summary saved) and an error message is shown. -/
theorem C2_error_result_not_saved (llm : Table → String → AnalysisResult)
    (db : Store) (now : Nat) (f : UploadedFile) (df : Table)
    (hp : f.parseOutcome = .ok df) (he : (llm df "basic").error.isSome = true) :
    show_quick_summary llm db now (some f) =
      .ok ⟨db, [.errorMsg "Failed to generate summary. Please try again."],
           some (df.numRows, df.numCols, df.missingCount)⟩ := by
  have hne : ¬ (llm df "basic").error = none := by
    cases h : (llm df "basic").error <;> simp_all
  simp [show_quick_summary, hp, hne]

/-- C2 witness: a concrete failing analysis leaves a concrete store
untouched. -/
theorem C2_witness :
    goodCsvFile.parseOutcome = .ok tinyTable ∧
    (llmFail tinyTable "basic").error.isSome = true ∧
    show_quick_summary llmFail {} 7 (some goodCsvFile) =
      .ok ⟨{}, [.errorMsg "Failed to generate summary. Please try again."],
           some (tinyTable.numRows, tinyTable.numCols, tinyTable.missingCount)⟩ :=
  ⟨rfl, rfl, C2_error_result_not_saved llmFail {} 7 goodCsvFile tinyTable rfl rfl⟩

/-! ## C3 -/

/-- C3: the displayed statistics are pure functions of the loaded table:
on both the Upload & Analyze metric cards and the Quick Summary metrics,
records is the row count, features the column count, and missing the total
count of missing cells. -/
theorem C3_displayed_stats (llm : Table → String → AnalysisResult)
    (db : Store) (now : Nat) (s : SessionState) (f : UploadedFile)
    (df : Table) (t : String) (r : Bool) (hp : f.parseOutcome = .ok df) :
    (show_upload_and_analyze llm s (some f) t r).metrics
      = some (df.numRows, df.numCols, df.numNumericCols, df.missingCount) ∧
    (∀ out, show_quick_summary llm db now (some f) = .ok out →
      out.metrics = some (df.numRows, df.numCols, df.missingCount)) := by
  constructor
  · cases r <;> simp [show_upload_and_analyze, hp]
  · intro out hout
    by_cases he : (llm df "basic").error = none
    · rw [show_quick_summary_ok llm db now f df hp he] at hout
      cases hout
      rfl
    · simp [show_quick_summary, hp, he] at hout
      rw [← hout]

/-- C3 witness: the spec scenario — a 100-row, 5-column CSV with 3 missing
cells reports records=100, features=5, missing=3 on both pages. -/
theorem C3_witness :
    bigCsvFile.parseOutcome = .ok table100 ∧
    table100.numRows = 100 ∧ table100.numCols = 5 ∧ table100.missingCount = 3 ∧
    ((show_upload_and_analyze llmOk {} (some bigCsvFile)
        "Basic Analysis" false).metrics
      = some (table100.numRows, table100.numCols, table100.numNumericCols,
              table100.missingCount) ∧
    (∀ out, show_quick_summary llmOk {} 7 (some bigCsvFile) = .ok out →
      out.metrics = some (table100.numRows, table100.numCols,
                          table100.missingCount))) :=
  ⟨rfl, rfl, rfl, rfl,
   C3_displayed_stats llmOk {} 7 {} bigCsvFile table100 "Basic Analysis" false rfl⟩

/-! ## C4 -/

/-- C4: the claim states that the caller checks the analysis result before
invoking the assembler.  False: at a concrete session holding an
`error`-bearing analysis result, the Report Generation page invokes
`report_agent.generate_report` with that error-bearing result — the
controller never inspects it for an `error` key, it only checks the session
fields for `None`. -/
theorem C4_counterexample :
    (show_report_generation errSession "Standard" true).assemblerCalledWith
      = some ("uploads/data.csv", errResult, lowerStr "Standard") ∧
    errResult.error.isSome = true :=
  ⟨rfl, rfl⟩

/-- C4 (amended): the assembler rejects invalid analysis input — it fails
on an `error`-bearing result and when `accuracy` is absent from a
"detailed"-mode result — and in the page no document is generated; however
the caller does not check the result before invoking the assembler, it
recovers the assembly failure into error messages. -/
theorem C4_invalid_input_no_document (s : SessionState) (file : String)
    (res : AnalysisResult) (fmt : String)
    (hf : s.current_file = some file) (hr : s.analysis_results = some res)
    (hbad : res.error.isSome = true ∨
            (lowerStr fmt = "detailed" ∧ res.accuracy = none)) :
    (∃ e, generate_report file res (lowerStr fmt) = .error e) ∧
    (show_report_generation s fmt true).generatedDoc = none ∧
    (∃ e, (show_report_generation s fmt true).messages
            = [.errorMsg ("Error generating report: " ++ e),
               .errorMsg "Please try again."]) := by
  have hgen : ∃ e, generate_report file res (lowerStr fmt) = .error e := by
    rcases hbad with herr | ⟨hfmt, hacc⟩
    · exact ⟨"AssemblyError: analysis result carries an error",
        by simp [generate_report, herr]⟩
    · cases herr : res.error with
      | some msg =>
          exact ⟨"AssemblyError: analysis result carries an error",
            by simp [generate_report, herr]⟩
      | none =>
          exact ⟨"AssemblyError: detailed report requires accuracy",
            by simp [generate_report, herr, hfmt, hacc]⟩
  obtain ⟨e, he⟩ := hgen
  refine ⟨⟨e, he⟩, ?_, ⟨e, ?_⟩⟩ <;>
    simp [show_report_generation, hf, hr, he]

/-- C4 witness: the amended behaviour at a concrete error-bearing session. -/
theorem C4_witness :
    errSession.current_file = some "uploads/data.csv" ∧
    errSession.analysis_results = some errResult ∧
    errResult.error.isSome = true ∧
    ((∃ e, generate_report "uploads/data.csv" errResult (lowerStr "Standard")
            = .error e) ∧
    (show_report_generation errSession "Standard" true).generatedDoc = none ∧
    (∃ e, (show_report_generation errSession "Standard" true).messages
            = [.errorMsg ("Error generating report: " ++ e),
               .errorMsg "Please try again."])) :=
  ⟨rfl, rfl, rfl,
   C4_invalid_input_no_document errSession "uploads/data.csv" errResult
     "Standard" rfl rfl (Or.inl rfl)⟩

/-! ## C5 -/

/-- C5: every report record the Quick Summary flow saves has report type
`"quick_summary"`, an empty report file path, and metadata consisting
exactly of the table row count, column count, and the uploaded file's
type. -/
theorem C5_quick_summary_record_shape (llm : Table → String → AnalysisResult)
    (db : Store) (now : Nat) (f : UploadedFile) (df : Table)
    (hp : f.parseOutcome = .ok df) (he : (llm df "basic").error = none) :
    ∃ out, show_quick_summary llm db now (some f) = .ok out ∧
      out.store.reports = db.reports ++
        [⟨db.nextReportId, f.name, "", "quick_summary", llm df "basic",
          ⟨df.numRows, df.numCols, f.filetype⟩, now⟩] :=
  ⟨_, show_quick_summary_ok llm db now f df hp he, rfl⟩

/-- C5 witness: the concrete record saved for a concrete upload. -/
theorem C5_witness :
    goodCsvFile.parseOutcome = .ok tinyTable ∧
    (llmOk tinyTable "basic").error = none ∧
    (∃ out, show_quick_summary llmOk {} 42 (some goodCsvFile) = .ok out ∧
      out.store.reports = ({} : Store).reports ++
        [⟨({} : Store).nextReportId, goodCsvFile.name, "", "quick_summary",
          llmOk tinyTable "basic",
          ⟨tinyTable.numRows, tinyTable.numCols, goodCsvFile.filetype⟩, 42⟩]) :=
  ⟨rfl, rfl,
   C5_quick_summary_record_shape llmOk {} 42 goodCsvFile tinyTable rfl rfl⟩

/-! ## C6 -/

/-- C6: within one Quick Summary action the quick summary is created only
after its parent report record exists: `save_quick_summary` is called with
the identifier that the completed `save_report` call just returned, it
succeeds (no `NotFoundError` propagates), and afterwards both records sit
appended to the unchanged store, mutated by nothing. -/
theorem C6_summary_after_parent (llm : Table → String → AnalysisResult)
    (db : Store) (now : Nat) (f : UploadedFile) (df : Table)
    (hp : f.parseOutcome = .ok df) (he : (llm df "basic").error = none) :
    ∃ out rec qs, show_quick_summary llm db now (some f) = .ok out ∧
      rec.id = (db.save_report now f.name "" "quick_summary" (llm df "basic")
        ⟨df.numRows, df.numCols, f.filetype⟩).2 ∧
      qs.report_id = rec.id ∧
      out.store.reports = db.reports ++ [rec] ∧
      out.store.summaries = db.summaries ++ [qs] ∧
      rec ∈ out.store.reports := by
  refine ⟨_, _, _, show_quick_summary_ok llm db now f df hp he,
          rfl, rfl, rfl, rfl, ?_⟩
  simp

/-- C6 witness: the concrete parent-then-summary pair for a concrete
upload. -/
theorem C6_witness :
    goodCsvFile.parseOutcome = .ok tinyTable ∧
    (llmOk tinyTable "basic").error = none ∧
    (∃ out rec qs, show_quick_summary llmOk {} 5 (some goodCsvFile) = .ok out ∧
      rec.id = (Store.save_report {} 5 goodCsvFile.name "" "quick_summary"
        (llmOk tinyTable "basic")
        ⟨tinyTable.numRows, tinyTable.numCols, goodCsvFile.filetype⟩).2 ∧
      qs.report_id = rec.id ∧
      out.store.reports = ({} : Store).reports ++ [rec] ∧
      out.store.summaries = ({} : Store).summaries ++ [qs] ∧
      rec ∈ out.store.reports) :=
  ⟨rfl, rfl, C6_summary_after_parent llmOk {} 5 goodCsvFile tinyTable rfl rfl⟩

/-! ## C7 -/

/-- C7: on a well-formed store, `save_report` followed immediately by
`get_report_details` on the returned identifier yields a record whose
filename, report type, and metadata exactly match the inputs given to
save. -/
theorem C7_save_getDetails_roundtrip (st : Store) (hwf : st.WF) (now : Nat)
    (filename report_path report_type : String)
    (res : AnalysisResult) (md : Metadata) :
    ∃ rec sums,
      (st.save_report now filename report_path report_type res md).1.get_report_details
          (st.save_report now filename report_path report_type res md).2
        = some (rec, sums) ∧
      rec.filename = filename ∧ rec.report_type = report_type ∧
      rec.metadata = md := by
  have hnone : st.reports.find? (fun r => r.id == st.nextReportId) = none := by
    rw [List.find?_eq_none]
    intro r hr
    have := hwf r hr
    simp only [beq_iff_eq]
    omega
  refine ⟨⟨st.nextReportId, filename, report_path, report_type, res, md, now⟩,
    st.summaries.filter (fun q => q.report_id == st.nextReportId),
    ?_, rfl, rfl, rfl⟩
  simp [Store.save_report, Store.get_report_details, List.find?_append, hnone]

/-- C7 witness: the round-trip on the empty store. -/
theorem C7_witness :
    Store.WF {} ∧
    (∃ rec sums,
      (Store.save_report {} 9 "data.csv" "reports/r.pdf" "standard"
          errResult ⟨2, 2, "text/csv"⟩).1.get_report_details
          (Store.save_report {} 9 "data.csv" "reports/r.pdf" "standard"
            errResult ⟨2, 2, "text/csv"⟩).2
        = some (rec, sums) ∧
      rec.filename = "data.csv" ∧ rec.report_type = "standard" ∧
      rec.metadata = ⟨2, 2, "text/csv"⟩) :=
  ⟨by simp [Store.WF],
   C7_save_getDetails_roundtrip {} (by simp [Store.WF]) 9 "data.csv"
     "reports/r.pdf" "standard" errResult ⟨2, 2, "text/csv"⟩⟩

/-! ## C8 -/

/-- C8: `recent(n)` returns at most `n` records ordered by creation time
descending with ties broken by identifier descending, and the Report
History page with no search query lists the 10 most recent records. -/
theorem C8_recent_bounded_sorted (st : Store) (n : Nat) (now : Nat) :
    (st.get_recent_reports n).length ≤ n ∧
    (st.get_recent_reports n).Pairwise (fun a b =>
        b.created_at < a.created_at ∨
        (b.created_at = a.created_at ∧ b.id ≤ a.id)) ∧
    (show_report_history st now "").listed = st.get_recent_reports 10 := by
  refine ⟨?_, ?_, ?_⟩
  · rw [Store.get_recent_reports, List.length_take]
    exact inf_le_left
  · have htrans : ∀ a b c : ReportRecord, recentLe a b = true →
        recentLe b c = true → recentLe a c = true := by
      intro a b c hab hbc
      simp only [recentLe, decide_eq_true_eq] at hab hbc ⊢
      omega
    have htot : ∀ a b : ReportRecord, (recentLe a b || recentLe b a) = true := by
      intro a b
      simp only [recentLe, Bool.or_eq_true, decide_eq_true_eq]
      omega
    have hs := List.sorted_mergeSort htrans htot st.reports
    have hsub := List.Pairwise.sublist
      (List.take_sublist n (st.reports.mergeSort recentLe)) hs
    refine hsub.imp ?_
    intro a b hab
    simpa only [recentLe, decide_eq_true_eq] using hab
  · simp [show_report_history]

/-! ## C9 -/

/-- C9: the Quick Summary uploader accepts `csv` and `xlsx`, but every
accepted upload is handed to the CSV parser, and the page contains no
exception handler: a failed parse (e.g. an xlsx file) propagates as the
raw exception instead of being recovered into a user-visible message. -/
theorem C9_unrecovered_parse_exception (llm : Table → String → AnalysisResult)
    (db : Store) (now : Nat) (f : UploadedFile) (e : String)
    (hp : f.parseOutcome = .error e) :
    quickSummaryTypes = ["csv", "xlsx"] ∧
    show_quick_summary llm db now (some f) = .error e :=
  ⟨rfl, by simp [show_quick_summary, hp]⟩

/-- C9 witness: a concrete xlsx upload whose parse failure escapes the
page. -/
theorem C9_witness :
    xlsxFile.parseOutcome = .error "ParserError: not a CSV" ∧
    (quickSummaryTypes = ["csv", "xlsx"] ∧
     show_quick_summary llmOk {} 3 (some xlsxFile)
       = .error "ParserError: not a CSV") :=
  ⟨rfl, C9_unrecovered_parse_exception llmOk {} 3 xlsxFile
    "ParserError: not a CSV" rfl⟩

/-! ## C10 -/

/-- C10: the quick-summary text persisted with a `quick_summary` report is
the analysis result's insights joined by newlines; when the `insights` key
is absent the empty string is saved. -/
theorem C10_summary_text_joined_insights (llm : Table → String → AnalysisResult)
    (db : Store) (now : Nat) (f : UploadedFile) (df : Table)
    (hp : f.parseOutcome = .ok df) (he : (llm df "basic").error = none) :
    ∃ out qs, show_quick_summary llm db now (some f) = .ok out ∧
      out.store.summaries = db.summaries ++ [qs] ∧
      qs.summary_text
        = String.intercalate "\n" ((llm df "basic").insights.getD []) ∧
      ((llm df "basic").insights = none → qs.summary_text = "") := by
  refine ⟨_,
    ⟨db.nextSummaryId, db.nextReportId,
      String.intercalate "\n" ((llm df "basic").insights.getD []), now⟩,
    show_quick_summary_ok llm db now f df hp he, rfl, rfl, ?_⟩
  intro hnone
  rw [hnone]
  rfl

/-- C10 witness: with two insights the saved text is their newline join;
with no `insights` key the saved text is empty. -/
theorem C10_witness :
    (∃ out qs, show_quick_summary llmOk {} 11 (some goodCsvFile) = .ok out ∧
      out.store.summaries = ({} : Store).summaries ++ [qs] ∧
      qs.summary_text
        = String.intercalate "\n" ((llmOk tinyTable "basic").insights.getD []) ∧
      ((llmOk tinyTable "basic").insights = none → qs.summary_text = "")) ∧
    (∃ out qs, show_quick_summary llmNoInsights {} 11 (some goodCsvFile) = .ok out ∧
      out.store.summaries = ({} : Store).summaries ++ [qs] ∧
      qs.summary_text
        = String.intercalate "\n"
            ((llmNoInsights tinyTable "basic").insights.getD []) ∧
      ((llmNoInsights tinyTable "basic").insights = none →
        qs.summary_text = "")) :=
  ⟨C10_summary_text_joined_insights llmOk {} 11 goodCsvFile tinyTable rfl rfl,
   C10_summary_text_joined_insights llmNoInsights {} 11 goodCsvFile tinyTable
     rfl rfl⟩

end MedReport
